import Mathlib

/-!
Verification of the PDF composition core of `src/app.py` (a FastAPI service
that overlays text on the first page of a PDF, concatenates two PDFs, and
generates a one-page report PDF).

The embedding models a parsed PDF document as an ordered list of pages, and a
page as the ordered list of drawing operations painted on it.  The reportlab
canvas (used by `add_text_to_pdf_logic` and `generate_report_pdf`) is a small
state machine holding the current font name, the current font size and the
operations emitted so far; `setFont`, `drawString`, `drawCentredString` and
`save` follow the reportlab API.  The pypdf classes `PdfWriter` (an append-only
page list), `PdfMerger` (appending whole documents) and `Page.merge_page`
(painting the operations of the overlay page on top of the operations already
on the target page) are modelled structurally.  Text metrics (the width of a
rendered string in a given font and size) are kept abstract as a parameter
`sw`, since geometric claims must hold for every font metric.
-/

namespace PdfApp

/-- Error outcomes of the core operations.  `emptyDocument` models the
`ValueError` raised at line 69 of `src/app.py` (the spec calls this error kind
`EmptyDocumentError`); `renderError` models the error kind `RenderError` of
section 7 of the spec. -/
inductive PdfError where
  | emptyDocument
  | renderError
deriving DecidableEq

/-- One drawing operation on a page, as emitted by the reportlab canvas.  Each
operation records the font name and font size that were current when it was
emitted, the anchor coordinates, and the text. -/
inductive ContentOp where
  | drawString (font : String) (size : ℚ) (x y : ℚ) (text : String)
  | drawCentredString (font : String) (size : ℚ) (x y : ℚ) (text : String)
deriving DecidableEq

/-- The font name recorded in a drawing operation. -/
def ContentOp.font : ContentOp → String
  | .drawString f _ _ _ _ => f
  | .drawCentredString f _ _ _ _ => f

/-- The font size recorded in a drawing operation. -/
def ContentOp.size : ContentOp → ℚ
  | .drawString _ s _ _ _ => s
  | .drawCentredString _ s _ _ _ => s

/-- The text carried by a drawing operation. -/
def ContentOp.text : ContentOp → String
  | .drawString _ _ _ _ t => t
  | .drawCentredString _ _ _ _ t => t

/-- A page: the ordered list of drawing operations painted on it. -/
structure Page where
  ops : List ContentOp
deriving DecidableEq

/-- A document is an ordered list of pages. -/
abbrev Document := List Page

/-- The texts drawn on a page, in painting order. -/
def Page.texts (p : Page) : List String :=
  p.ops.map ContentOp.text

/-- pypdf `page.merge_page(other)`: the content of `other` is painted on top
of the existing content of the page. -/
def Page.merge_page (self page2 : Page) : Page :=
  Page.mk (self.ops ++ page2.ops)

/-- Page width of the reportlab `letter` page size, in points. -/
def letterW : ℚ := 612

/-- Page height of the reportlab `letter` page size, in points. -/
def letterH : ℚ := 792

/-- One inch in points (`reportlab.lib.units.inch`). -/
def inch : ℚ := 72

/-- The reportlab canvas state: current font name, current font size, and the
drawing operations emitted so far on the current page. -/
structure Canvas where
  fontName : String
  fontSize : ℚ
  ops : List ContentOp
deriving DecidableEq

/-- `canvas.Canvas(packet, pagesize=letter)`: a fresh canvas.  The reportlab
default font is Helvetica 12. -/
def Canvas.new : Canvas :=
  Canvas.mk "Helvetica" 12 []

/-- `can.setFont(name, size)`. -/
def Canvas.setFont (c : Canvas) (psfontname : String) (size : ℚ) : Canvas :=
  Canvas.mk psfontname size c.ops

/-- `can.drawString(x, y, text)`: draws `text` with the current font, the
anchor `x` being the left edge of the text run. -/
def Canvas.drawString (c : Canvas) (x y : ℚ) (text : String) : Canvas :=
  Canvas.mk c.fontName c.fontSize
    (c.ops ++ [ContentOp.drawString c.fontName c.fontSize x y text])

/-- `can.drawCentredString(x, y, text)`: draws `text` with the current font,
the text run being centred on the anchor `x`. -/
def Canvas.drawCentredString (c : Canvas) (x y : ℚ) (text : String) : Canvas :=
  Canvas.mk c.fontName c.fontSize
    (c.ops ++ [ContentOp.drawCentredString c.fontName c.fontSize x y text])

/-- `can.save()`: finalizes the canvas into a one-page document. -/
def Canvas.save (c : Canvas) : Document :=
  [Page.mk c.ops]

/-- pypdf `PdfWriter`: an append-only list of output pages. -/
structure PdfWriter where
  pages : List Page
deriving DecidableEq

/-- `output.add_page(page)`. -/
def PdfWriter.add_page (w : PdfWriter) (p : Page) : PdfWriter :=
  PdfWriter.mk (w.pages ++ [p])

/-- Lines 44 to 61 of `src/app.py`: build the one-page overlay PDF with
reportlab (`Helvetica-Bold` at 36 points, one centred string at the horizontal
middle of the page, 0.75 inch below the top edge). -/
def overlay_pdf (text_to_add : String) : Document :=
  let can := Canvas.new
  let can := can.setFont "Helvetica-Bold" 36
  let x_center := letterW / 2
  let y_top := letterH - 0.75 * inch
  let can := can.drawCentredString x_center y_top text_to_add
  can.save

/-- Lines 39 to 85 of `src/app.py` (`add_text_to_pdf_logic`): build the text
overlay, fail with the empty-document error when the original has no pages,
otherwise merge the overlay page onto page 0 and append the remaining pages
unchanged. -/
def add_text_to_pdf_logic (existing_pdf : Document) (text_to_add : String) :
    Except PdfError Document :=
  let new_pdf := overlay_pdf text_to_add
  if existing_pdf.isEmpty then
    Except.error PdfError.emptyDocument
  else
    let page := (existing_pdf.headD (Page.mk [])).merge_page (new_pdf.headD (Page.mk []))
    let output := (PdfWriter.mk []).add_page page
    let output := existing_pdf.tail.foldl (fun w p => w.add_page p) output
    Except.ok output.pages

/-- pypdf `PdfMerger`: accumulates pages of whole appended documents. -/
structure PdfMerger where
  pages : List Page
deriving DecidableEq

/-- `merger.append(document)`: appends every page of the document, in order. -/
def PdfMerger.append (m : PdfMerger) (d : Document) : PdfMerger :=
  PdfMerger.mk (m.pages ++ d)

/-- Lines 139 to 152 of `src/app.py` (the core of the `merge_pdfs` endpoint):
append the first document, then the second, and write the result out. -/
def merge_pdfs (pdf_bytes_1 pdf_bytes_2 : Document) : Document :=
  let merger := PdfMerger.mk []
  let merger := merger.append pdf_bytes_1
  let merger := merger.append pdf_bytes_2
  merger.pages

/-- The low decimal digits of a natural number, as characters. -/
def pad2c (n : Nat) : List Char :=
  [Nat.digitChar (n / 10 % 10), Nat.digitChar (n % 10)]

/-- The four low decimal digits of a natural number, as characters. -/
def pad4c (n : Nat) : List Char :=
  [Nat.digitChar (n / 1000 % 10), Nat.digitChar (n / 100 % 10),
   Nat.digitChar (n / 10 % 10), Nat.digitChar (n % 10)]

/-- Modelled from the spec: date formatting is an external collaborator
(section 1 declares timezone and date formatting out of scope), and
`datetime.now().strftime("%d/%m/%Y")` at line 182 of `src/app.py` is the only
use.  The format zero-pads day and month to two digits and the year to four;
the model takes the current date as explicit components and is faithful for
every real calendar date (day and month below 100, year below 10000). -/
def strftime_dmY (day month year : Nat) : String :=
  String.mk (pad2c day ++ '/' :: pad2c month ++ '/' :: pad4c year)

/-- Lines 168 to 217 of `src/app.py` (`generate_report_pdf`): build a fresh
one-page report with a fixed header block, the dynamic fields, and a footer,
stepping a vertical cursor down from one inch below the top edge.  The current
date is passed in as explicit components (see `strftime_dmY`). -/
def generate_report_pdf (nome telefone : String) (day month year : Nat) :
    Document :=
  let can := Canvas.new
  let x_margin := inch
  let y_position := letterH - inch
  let data_atual := strftime_dmY day month year
  let can := can.setFont "Helvetica-Bold" 14
  let can := can.drawString x_margin y_position "🧬 Instituto Vitalis de Saúde Feminina"
  let y_position := y_position - 0.25 * inch
  let can := can.drawString x_margin y_position "Diagnóstico Hormonal Personalizado"
  let y_position := y_position - 0.25 * inch
  let can := can.drawString x_margin y_position "Mapa da Cascata Hormonal e Nível de Estresse Endócrino"
  let y_position := y_position - 0.5 * inch
  let can := can.setFont "Helvetica" 12
  let can := can.drawString x_margin y_position ("Nome: " ++ nome)
  let y_position := y_position - 0.2 * inch
  let can := can.drawString x_margin y_position ("Telefone: " ++ telefone)
  let y_position := y_position - 0.2 * inch
  let can := can.drawString x_margin y_position ("Data: " ++ data_atual)
  let y_position := y_position - 0.2 * inch
  let can := can.drawString x_margin y_position "Tipo de Avaliação: Pré-Diagnóstico de Cascata Hormonal"
  let y_position := y_position - 0.5 * inch
  let can := can.setFont "Helvetica-Oblique" 10
  let can := can.drawString x_margin y_position "Relatório confidencial preparado com base nas suas respostas ao questionário de equilíbrio hormonal."
  can.save

/-- The horizontal span covered by a drawing operation, for a given string
width metric `sw` (font name, font size, text to width in points).  A plain
`drawString` extends right from its anchor; a `drawCentredString` is centred
on its anchor. -/
def runSpan (sw : String → ℚ → String → ℚ) : ContentOp → ℚ × ℚ
  | .drawString f s x _ t => (x, x + sw f s t)
  | .drawCentredString f s x _ t => (x - sw f s t / 2, x + sw f s t / 2)

/-- The horizontal midpoint of the span covered by a drawing operation. -/
def runMidpoint (sw : String → ℚ → String → ℚ) (op : ContentOp) : ℚ :=
  ((runSpan sw op).1 + (runSpan sw op).2) / 2

/-- Modelled from the spec: font resolution lives in reportlab (an external
collaborator); section 4.1 requires at least the regular, bold and oblique
styles of one base family at arbitrary point size, anything else failing with
`RenderError` rather than silently substituting.  The base family is
Helvetica, the one family the source uses. -/
def resolveFont (psfontname : String) (size : ℚ) : Except PdfError (String × ℚ) :=
  if psfontname = "Helvetica" ∨ psfontname = "Helvetica-Bold" ∨
      psfontname = "Helvetica-Oblique" then
    Except.ok (psfontname, size)
  else
    Except.error PdfError.renderError

/-- Checks the `DD/MM/YYYY` shape: ten characters, digits in the day, month
and year positions, slashes at positions 2 and 5. -/
def matchesDDMMYYYY (s : String) : Bool :=
  match s.data with
  | [d1, d2, a, m1, m2, b, y1, y2, y3, y4] =>
    d1.isDigit && d2.isDigit && (a == '/') && m1.isDigit && m2.isDigit &&
      (b == '/') && y1.isDigit && y2.isDigit && y3.isDigit && y4.isDigit
  | _ => false

/-! Helper lemmas shared by the claim theorems. -/

theorem pages_foldl (rest : List Page) (w : PdfWriter) :
    (rest.foldl (fun w p => w.add_page p) w).pages = w.pages ++ rest := by
  induction rest generalizing w with
  | nil => simp
  | cons p ps ih =>
    rw [List.foldl_cons, ih]
    simp [PdfWriter.add_page]

theorem overlay_pdf_ops (t : String) :
    overlay_pdf t =
      [Page.mk [ContentOp.drawCentredString "Helvetica-Bold" 36
        (letterW / 2) (letterH - 0.75 * inch) t]] := rfl

theorem add_text_to_pdf_logic_cons (page0 : Page) (rest : List Page) (t : String) :
    add_text_to_pdf_logic (page0 :: rest) t =
      Except.ok (page0.merge_page ((overlay_pdf t).headD (Page.mk [])) :: rest) := by
  simp only [add_text_to_pdf_logic, List.isEmpty_cons, Bool.false_eq_true,
    if_false, List.headD_cons, List.tail_cons]
  rw [pages_foldl]
  simp [PdfWriter.add_page]

theorem digitChar_isDigit (k : Nat) (h : k < 10) :
    (Nat.digitChar k).isDigit = true := by
  interval_cases k <;> decide

theorem digitChar_mod_isDigit (n : Nat) :
    (Nat.digitChar (n % 10)).isDigit = true :=
  digitChar_isDigit _ (Nat.mod_lt _ (by decide))

theorem matchesDDMMYYYY_strftime (d m y : Nat) :
    matchesDDMMYYYY (strftime_dmY d m y) = true := by
  simp [matchesDDMMYYYY, strftime_dmY, pad2c, pad4c, digitChar_mod_isDigit]

theorem generate_report_pdf_eq (nome telefone : String) (d m y : Nat) :
    generate_report_pdf nome telefone d m y =
      [Page.mk
        [ContentOp.drawString "Helvetica-Bold" 14 inch (letterH - inch)
           "🧬 Instituto Vitalis de Saúde Feminina",
         ContentOp.drawString "Helvetica-Bold" 14 inch
           (letterH - inch - 0.25 * inch) "Diagnóstico Hormonal Personalizado",
         ContentOp.drawString "Helvetica-Bold" 14 inch
           (letterH - inch - 0.25 * inch - 0.25 * inch)
           "Mapa da Cascata Hormonal e Nível de Estresse Endócrino",
         ContentOp.drawString "Helvetica" 12 inch
           (letterH - inch - 0.25 * inch - 0.25 * inch - 0.5 * inch)
           ("Nome: " ++ nome),
         ContentOp.drawString "Helvetica" 12 inch
           (letterH - inch - 0.25 * inch - 0.25 * inch - 0.5 * inch - 0.2 * inch)
           ("Telefone: " ++ telefone),
         ContentOp.drawString "Helvetica" 12 inch
           (letterH - inch - 0.25 * inch - 0.25 * inch - 0.5 * inch - 0.2 * inch
             - 0.2 * inch)
           ("Data: " ++ strftime_dmY d m y),
         ContentOp.drawString "Helvetica" 12 inch
           (letterH - inch - 0.25 * inch - 0.25 * inch - 0.5 * inch - 0.2 * inch
             - 0.2 * inch - 0.2 * inch)
           "Tipo de Avaliação: Pré-Diagnóstico de Cascata Hormonal",
         ContentOp.drawString "Helvetica-Oblique" 10 inch
           (letterH - inch - 0.25 * inch - 0.25 * inch - 0.5 * inch - 0.2 * inch
             - 0.2 * inch - 0.2 * inch - 0.5 * inch)
           "Relatório confidencial preparado com base nas suas respostas ao questionário de equilíbrio hormonal."]] := rfl

/-! Claim theorems. -/

/-- C1: for every valid input document with at least one page and every
overlay text, `add_text_to_pdf_logic` succeeds and returns a document whose
page count equals the page count of the input; compositing never adds or
removes pages. -/
theorem applyOverlay_preserves_pageCount (D : Document) (t : String)
    (h : D ≠ []) :
    ∃ R, add_text_to_pdf_logic D t = Except.ok R ∧ R.length = D.length := by
  cases D with
  | nil => exact absurd rfl h
  | cons page0 rest =>
    exact ⟨_, add_text_to_pdf_logic_cons page0 rest t, by simp⟩

theorem applyOverlay_preserves_pageCount_witness :
    ∃ R, add_text_to_pdf_logic [Page.mk [], Page.mk []] "TESTE" = Except.ok R ∧
      R.length = ([Page.mk [], Page.mk []] : Document).length :=
  applyOverlay_preserves_pageCount [Page.mk [], Page.mk []] "TESTE" (by simp)

/-- C2: on a document with at least one page, the output of
`add_text_to_pdf_logic` is the composited page 0 followed by pages 1 onwards
of the input, unchanged and in their original order; only page 0 is
modified. -/
theorem applyOverlay_frame (page0 : Page) (rest : List Page) (t : String)
    (R : Document)
    (h : add_text_to_pdf_logic (page0 :: rest) t = Except.ok R) :
    R = page0.merge_page ((overlay_pdf t).headD (Page.mk [])) :: rest := by
  rw [add_text_to_pdf_logic_cons] at h
  exact ((Except.ok.injEq _ _).mp h).symm

theorem applyOverlay_frame_witness :
    ([Page.mk [ContentOp.drawCentredString "Helvetica-Bold" 36
        (letterW / 2) (letterH - 0.75 * inch) "TESTE"],
      Page.mk []] : Document) =
      (Page.mk []).merge_page ((overlay_pdf "TESTE").headD (Page.mk [])) ::
        [Page.mk []] :=
  applyOverlay_frame (Page.mk []) [Page.mk []] "TESTE" _ rfl

/-- C3: on a document with zero pages, `add_text_to_pdf_logic` fails with the
empty-document error (the `ValueError` of line 69, a client-input error) for
every overlay text, and returns no output document. -/
theorem applyOverlay_empty_fails (t : String) :
    add_text_to_pdf_logic [] t = Except.error PdfError.emptyDocument := rfl

/-- C4: concatenation returns exactly the pages of the first document followed
by the pages of the second: the page count is the sum of the two page counts,
the first block of pages is the first document and the rest is the second
document, every page preserved in content and order with no special-casing of
page 0. -/
theorem concat_pages (D1 D2 : Document) :
    merge_pdfs D1 D2 = D1 ++ D2 ∧
    (merge_pdfs D1 D2).length = D1.length + D2.length ∧
    (merge_pdfs D1 D2).take D1.length = D1 ∧
    (merge_pdfs D1 D2).drop D1.length = D2 := by
  have hbase : merge_pdfs D1 D2 = D1 ++ D2 := by
    simp [merge_pdfs, PdfMerger.append]
  refine ⟨hbase, ?_, ?_, ?_⟩
  · simp [hbase]
  · rw [hbase]; exact List.take_left D1 D2
  · rw [hbase]; exact List.drop_left D1 D2

/-- C5: the empty document is a left and a right identity of concatenation:
merging an empty document with D yields D unchanged, on either side. -/
theorem concat_identity (D : Document) :
    merge_pdfs [] D = D ∧ merge_pdfs D [] = D := by
  constructor <;> simp [merge_pdfs, PdfMerger.append]

/-- C8: `add_text_to_pdf_logic` is not idempotent: there is a valid non-empty
document and an overlay text for which applying the overlay twice yields a
document different from applying it once (the two overlays stack on
page 0). -/
theorem applyOverlay_not_idempotent :
    ∃ (D R1 R2 : Document) (t : String), D ≠ [] ∧
      add_text_to_pdf_logic D t = Except.ok R1 ∧
      add_text_to_pdf_logic R1 t = Except.ok R2 ∧ R1 ≠ R2 := by
  refine ⟨[Page.mk []],
    [Page.mk [ContentOp.drawCentredString "Helvetica-Bold" 36
      (letterW / 2) (letterH - 0.75 * inch) "TESTE"]],
    [Page.mk [ContentOp.drawCentredString "Helvetica-Bold" 36
        (letterW / 2) (letterH - 0.75 * inch) "TESTE",
      ContentOp.drawCentredString "Helvetica-Bold" 36
        (letterW / 2) (letterH - 0.75 * inch) "TESTE"]],
    "TESTE", by simp, rfl, rfl, ?_⟩
  intro hEq
  have hlen := congrArg (fun d => ((d.headD (Page.mk [])).ops).length) hEq
  simp at hlen

/-- C10: for every text string (the empty string and arbitrarily long strings
included) and every input document with at least one page,
`add_text_to_pdf_logic` succeeds; the text is drawn on page 0 verbatim, never
validated, clipped or length-limited, and the empty-pages check is the only
error branch. -/
theorem applyOverlay_total (D : Document) (t : String) (h : D ≠ []) :
    ∃ R, add_text_to_pdf_logic D t = Except.ok R ∧
      (R.headD (Page.mk [])).ops =
        (D.headD (Page.mk [])).ops ++
          [ContentOp.drawCentredString "Helvetica-Bold" 36
            (letterW / 2) (letterH - 0.75 * inch) t] := by
  cases D with
  | nil => exact absurd rfl h
  | cons page0 rest =>
    refine ⟨_, add_text_to_pdf_logic_cons page0 rest t, ?_⟩
    simp [Page.merge_page, overlay_pdf_ops]

theorem applyOverlay_total_witness :
    ∃ R, add_text_to_pdf_logic [Page.mk []] "" = Except.ok R ∧
      (R.headD (Page.mk [])).ops =
        (([Page.mk []] : Document).headD (Page.mk [])).ops ++
          [ContentOp.drawCentredString "Helvetica-Bold" 36
            (letterW / 2) (letterH - 0.75 * inch) ""] :=
  applyOverlay_total [Page.mk []] "" (by simp)

/-- C6: the report generated for name Maria Silva and phone 11999998888 (for
any real current date) is a single-page document, built directly with no merge
against an original document, whose drawn texts include the literal strings
Maria Silva and 11999998888 and a date string of shape DD/MM/YYYY. -/
theorem generate_report_contents (day month year : Nat)
    (hd : day < 100) (hm : month < 100) (hy : year < 10000) :
    (generate_report_pdf "Maria Silva" "11999998888" day month year).length = 1 ∧
    (∃ t ∈ ((generate_report_pdf "Maria Silva" "11999998888" day month
        year).headD (Page.mk [])).texts, "Maria Silva".data <:+: t.data) ∧
    (∃ t ∈ ((generate_report_pdf "Maria Silva" "11999998888" day month
        year).headD (Page.mk [])).texts, "11999998888".data <:+: t.data) ∧
    (∃ t ∈ ((generate_report_pdf "Maria Silva" "11999998888" day month
        year).headD (Page.mk [])).texts,
      ∃ ds, matchesDDMMYYYY ds = true ∧ ds.data <:+: t.data) := by
  rw [generate_report_pdf_eq]
  refine ⟨rfl, ⟨"Nome: " ++ "Maria Silva", ?_, ?_⟩,
    ⟨"Telefone: " ++ "11999998888", ?_, ?_⟩,
    ⟨"Data: " ++ strftime_dmY day month year, ?_,
      strftime_dmY day month year, matchesDDMMYYYY_strftime day month year, ?_⟩⟩
  · simp [Page.texts, ContentOp.text]
  · rw [String.data_append]
    exact (List.suffix_append _ _).isInfix
  · simp [Page.texts, ContentOp.text]
  · rw [String.data_append]
    exact (List.suffix_append _ _).isInfix
  · simp [Page.texts, ContentOp.text]
  · rw [String.data_append]
    exact (List.suffix_append _ _).isInfix

theorem generate_report_contents_witness :
    (generate_report_pdf "Maria Silva" "11999998888" 12 10 2026).length = 1 ∧
    (∃ t ∈ ((generate_report_pdf "Maria Silva" "11999998888" 12 10
        2026).headD (Page.mk [])).texts, "Maria Silva".data <:+: t.data) ∧
    (∃ t ∈ ((generate_report_pdf "Maria Silva" "11999998888" 12 10
        2026).headD (Page.mk [])).texts, "11999998888".data <:+: t.data) ∧
    (∃ t ∈ ((generate_report_pdf "Maria Silva" "11999998888" 12 10
        2026).headD (Page.mk [])).texts,
      ∃ ds, matchesDDMMYYYY ds = true ∧ ds.data <:+: t.data) :=
  generate_report_contents 12 10 2026 (by decide) (by decide) (by decide)

/-- C7: for every string width metric and every text content, the centred
overlay instruction built by `add_text_to_pdf_logic` is the one drawing
operation of the overlay page, its anchor is the horizontal midpoint of the
Letter page (612 / 2 = 306 points), and the midpoint of the rendered text run
is exactly 306 points; in particular this holds for the content TESTE. -/
theorem centred_overlay_midpoint (sw : String → ℚ → String → ℚ)
    (content : String) :
    ((overlay_pdf content).headD (Page.mk [])).ops =
      [ContentOp.drawCentredString "Helvetica-Bold" 36 (letterW / 2)
        (letterH - 0.75 * inch) content] ∧
    letterW / 2 = 306 ∧
    runMidpoint sw (ContentOp.drawCentredString "Helvetica-Bold" 36
      (letterW / 2) (letterH - 0.75 * inch) content) = 306 := by
  refine ⟨by rw [overlay_pdf_ops]; rfl, by norm_num [letterW], ?_⟩
  simp only [runMidpoint, runSpan, letterW]
  ring_nf

/-- C9: font resolution supports the regular, bold and oblique styles of the
Helvetica base family at arbitrary point size; every other font name fails
with the render error rather than silently substituting; and every drawing
operation emitted by the overlay builder and the report generator uses one of
the supported fonts. -/
theorem font_resolution (size : ℚ) (f : String)
    (h1 : f ≠ "Helvetica") (h2 : f ≠ "Helvetica-Bold")
    (h3 : f ≠ "Helvetica-Oblique") :
    resolveFont "Helvetica" size = Except.ok ("Helvetica", size) ∧
    resolveFont "Helvetica-Bold" size = Except.ok ("Helvetica-Bold", size) ∧
    resolveFont "Helvetica-Oblique" size = Except.ok ("Helvetica-Oblique", size) ∧
    resolveFont f size = Except.error PdfError.renderError ∧
    (∀ t, ∀ op ∈ ((overlay_pdf t).headD (Page.mk [])).ops,
      resolveFont op.font op.size = Except.ok (op.font, op.size)) ∧
    (∀ nome telefone d m y, ∀ op ∈
        ((generate_report_pdf nome telefone d m y).headD (Page.mk [])).ops,
      resolveFont op.font op.size = Except.ok (op.font, op.size)) := by
  refine ⟨rfl, rfl, rfl, ?_, ?_, ?_⟩
  · have hno : ¬(f = "Helvetica" ∨ f = "Helvetica-Bold" ∨
        f = "Helvetica-Oblique") := by
      simp [h1, h2, h3]
    simp [resolveFont, hno]
  · intro t op hop
    rw [overlay_pdf_ops] at hop
    simp only [List.headD_cons, List.mem_singleton] at hop
    subst hop
    rfl
  · intro nome telefone d m y op hop
    rw [generate_report_pdf_eq] at hop
    simp only [List.headD_cons, List.mem_cons, List.mem_singleton,
      List.not_mem_nil, or_false] at hop
    rcases hop with h | h | h | h | h | h | h | h <;> subst h <;> rfl

theorem font_resolution_witness :
    resolveFont "Helvetica" 12 = Except.ok ("Helvetica", 12) ∧
    resolveFont "Helvetica-Bold" 12 = Except.ok ("Helvetica-Bold", 12) ∧
    resolveFont "Helvetica-Oblique" 12 = Except.ok ("Helvetica-Oblique", 12) ∧
    resolveFont "Courier" 12 = Except.error PdfError.renderError ∧
    (∀ t, ∀ op ∈ ((overlay_pdf t).headD (Page.mk [])).ops,
      resolveFont op.font op.size = Except.ok (op.font, op.size)) ∧
    (∀ nome telefone d m y, ∀ op ∈
        ((generate_report_pdf nome telefone d m y).headD (Page.mk [])).ops,
      resolveFont op.font op.size = Except.ok (op.font, op.size)) :=
  font_resolution 12 "Courier" (by decide) (by decide) (by decide)

end PdfApp
